import Mathlib

/-!
Verification of the `revenuecat_sdk` Python client against its
natural-language specification.  The Python modules
`revenuecat_sdk/{client,enums,response,utils}.py` are shallowly embedded:
JSON values become an inductive `JValue`, Python runtime exceptions become
an inductive `PyErr`, fallible code returns `Except PyErr _`, and the HTTP
transport is an explicit oracle parameter (`TransportOutcome`).
-/

namespace RC

/-- A parsed JSON value, as Python's `json` module would return it
(dicts keep insertion order, so an object is an ordered association list). -/
inductive JValue where
  | null : JValue
  | bool : Bool → JValue
  | num : Int → JValue
  | str : String → JValue
  | arr : List JValue → JValue
  | obj : List (String × JValue) → JValue

/-- Python exceptions that the embedded client code can raise, flattened into
one type.  `exceptionMsg` is the builtin `Exception(msg)`; `unavailable` and
`revenueCatError` are the two classes `client.py` imports from the package's
`errors` module; `jsonDecodeError` is `json.JSONDecodeError` escaping from
`response.json()`. -/
inductive PyErr where
  | typeError : String → PyErr
  | attributeError : String → PyErr
  | keyError : String → PyErr
  | valueError : String → PyErr
  | stopIter : PyErr
  | exceptionMsg : String → PyErr
  | unavailable : PyErr
  | revenueCatError : PyErr
  | jsonDecodeError : PyErr
  | configurationError : PyErr
  deriving DecidableEq, Repr

/-- Modelled from the spec: the repository's `errors.py` is not among the
source files (only `RevenueCatError` and `Unavailable` are imported by
`client.py`), and §7 of the spec names a third class, `ConfigurationError`,
for local credential failures.  The constructor `PyErr.configurationError`
stands for that class; nothing in the embedded `client.py` code produces it,
because `client.py` raises the builtin `Exception` at its credential check. -/
def configurationErrorOfSpec : PyErr := PyErr.configurationError

/-- `enums.py`: `class Platform(Enum)`. -/
inductive Platform where
  | IOS | ANDROID | MAC_OS | UI_KIT_FOR_MAC
  deriving DecidableEq, Repr

/-- The `.value` of each `Platform` member. -/
def Platform.value : Platform → String
  | .IOS => "ios"
  | .ANDROID => "android"
  | .MAC_OS => "macos"
  | .UI_KIT_FOR_MAC => "uikitformac"

/-- `Platform(w)`: Python `Enum` lookup by value — exact string match against
the member table, `ValueError` (here `none`) for anything else. -/
def Platform.fromValue (w : String) : Option Platform :=
  if w = "ios" then some .IOS
  else if w = "android" then some .ANDROID
  else if w = "macos" then some .MAC_OS
  else if w = "uikitformac" then some .UI_KIT_FOR_MAC
  else none

/-- `enums.py`: `class PromotionDuration(Enum)`. -/
inductive PromotionDuration where
  | DAILY | WEEKLY | MONTHLY | TWO_MONTH | THREE_MONTH | SIX_MONTH | YEARLY | LIFETIME
  deriving DecidableEq, Repr

/-- The `.value` of each `PromotionDuration` member. -/
def PromotionDuration.value : PromotionDuration → String
  | .DAILY => "daily"
  | .WEEKLY => "weekly"
  | .MONTHLY => "monthly"
  | .TWO_MONTH => "two_month"
  | .THREE_MONTH => "three_month"
  | .SIX_MONTH => "six_month"
  | .YEARLY => "yearly"
  | .LIFETIME => "lifetime"

/-- `PromotionDuration(w)`: exact-match value lookup. -/
def PromotionDuration.fromValue (w : String) : Option PromotionDuration :=
  if w = "daily" then some .DAILY
  else if w = "weekly" then some .WEEKLY
  else if w = "monthly" then some .MONTHLY
  else if w = "two_month" then some .TWO_MONTH
  else if w = "three_month" then some .THREE_MONTH
  else if w = "six_month" then some .SIX_MONTH
  else if w = "yearly" then some .YEARLY
  else if w = "lifetime" then some .LIFETIME
  else none

/-- `enums.py`: `class Store(Enum)`. -/
inductive Store where
  | APP_STORE | MAC_APP_STORE | PLAY_STORE | STRIPE | PROMOTIONAL
  deriving DecidableEq, Repr

/-- The `.value` of each `Store` member. -/
def Store.value : Store → String
  | .APP_STORE => "app_store"
  | .MAC_APP_STORE => "mac_app_store"
  | .PLAY_STORE => "play_store"
  | .STRIPE => "stripe"
  | .PROMOTIONAL => "promotional"

/-- `Store(w)`: exact-match value lookup. -/
def Store.fromValue (w : String) : Option Store :=
  if w = "app_store" then some .APP_STORE
  else if w = "mac_app_store" then some .MAC_APP_STORE
  else if w = "play_store" then some .PLAY_STORE
  else if w = "stripe" then some .STRIPE
  else if w = "promotional" then some .PROMOTIONAL
  else none

/-- `enums.py`: `class PaymentMode(Enum)` (string values "0", "1", "2"). -/
inductive PaymentMode where
  | PAY_AS_YOU_GO | PAY_UP_FRONT | FREE_TRIAL
  deriving DecidableEq, Repr

/-- The `.value` of each `PaymentMode` member. -/
def PaymentMode.value : PaymentMode → String
  | .PAY_AS_YOU_GO => "0"
  | .PAY_UP_FRONT => "1"
  | .FREE_TRIAL => "2"

/-! ## `utils.py` -/

/-- The UTF-8 bytes of one character (as `str.encode` produces them). -/
def utf8BytesOfChar (c : Char) : List Nat :=
  let n := c.toNat
  if n < 0x80 then [n]
  else if n < 0x800 then [0xC0 + n / 0x40, 0x80 + n % 0x40]
  else if n < 0x10000 then
    [0xE0 + n / 0x1000, 0x80 + (n / 0x40) % 0x40, 0x80 + n % 0x40]
  else
    [0xF0 + n / 0x40000, 0x80 + (n / 0x1000) % 0x40, 0x80 + (n / 0x40) % 0x40,
     0x80 + n % 0x40]

/-- Uppercase hexadecimal digit, as `urllib.parse.quote` renders escapes. -/
def hexUpper (n : Nat) : Char :=
  if n < 10 then Char.ofNat (48 + n) else Char.ofNat (55 + n)

/-- `urllib.parse.quote`'s always-safe bytes: ASCII letters, digits and
`_.-~`. -/
def isAlwaysSafeByte (b : Nat) : Bool :=
  (65 ≤ b && b ≤ 90) || (97 ≤ b && b ≤ 122) || (48 ≤ b && b ≤ 57) ||
    b = 95 || b = 46 || b = 45 || b = 126

/-- One byte of `urllib.parse.quote`'s output: kept verbatim when always-safe
or in `safe`, otherwise escaped as `%XX`. -/
def quoteByte (safe : List Nat) (b : Nat) : String :=
  if isAlwaysSafeByte b || safe.contains b then String.singleton (Char.ofNat b)
  else "%" ++ String.singleton (hexUpper (b / 16)) ++ String.singleton (hexUpper (b % 16))

/-- `urllib.parse.quote(s)` with its default `safe='/'`: percent-encode the
UTF-8 bytes of `s`, leaving always-safe bytes and the forward slash alone. -/
def quote (s : String) : String :=
  String.join (((s.data.flatMap utf8BytesOfChar).map (quoteByte ['/'.toNat])))

/-- `utils.py`: `def encode(value): return urllib.parse.quote(value)`. -/
def encode (value : String) : String := quote value

/-- A Python `datetime.datetime` by its components (microsecond precision).
Naive-datetime methods that depend on the platform's local timezone are
modelled with that timezone taken as UTC; none of the proved properties
depends on the choice. -/
structure PyDatetime where
  year : Nat
  month : Nat
  day : Nat
  hour : Nat
  minute : Nat
  second : Nat
  microsecond : Nat
  deriving DecidableEq, Repr

/-- Days between 1970-01-01 and the civil date `(y, m, d)` (valid for every
`y ≥ 1`, the range a Python `datetime` can hold). -/
def daysFromCivil1970 (y m d : Nat) : Int :=
  let y' := if m ≤ 2 then y - 1 else y
  let era := y' / 400
  let yoe := y' - era * 400
  let doy := (153 * (if 2 < m then m - 3 else m + 9) + 2) / 5 + (d - 1)
  let doe := yoe * 365 + yoe / 4 - yoe / 100 + doy
  ((era * 146097 + doe : Nat) : Int) - 719468

/-- Whole seconds between the epoch and a `PyDatetime`. -/
def PyDatetime.epochSeconds (t : PyDatetime) : Int :=
  daysFromCivil1970 t.year t.month t.day * 86400 +
    (t.hour * 3600 + t.minute * 60 + t.second : Nat)

/-- Microseconds between the epoch and a `PyDatetime`. -/
def PyDatetime.epochMicros (t : PyDatetime) : Int :=
  t.epochSeconds * 1000000 + (t.microsecond : Int)

/-- `datetime.timestamp()`: seconds since the epoch, fractional part included.
Modelled exactly, in ℚ (the claim under test concerns the arithmetic after
this call, not binary-float rounding inside it). -/
def PyDatetime.timestamp (t : PyDatetime) : ℚ :=
  (t.epochSeconds : ℚ) + (t.microsecond : ℚ) / 1000000

/-- `utils.py`: `def to_timestamp(value): return value.timestamp() * 1000.0`. -/
def to_timestamp (value : PyDatetime) : ℚ :=
  value.timestamp * 1000

/-! ## Python runtime semantics on JSON-derived values -/

/-- Python truthiness of a JSON-derived value (`if v:`): `None`, `False`,
zero, and empty strings/lists/dicts are falsy. -/
def truthy : JValue → Bool
  | .null => false
  | .bool b => b
  | .num n => n ≠ 0
  | .str s => s ≠ ""
  | .arr xs => ¬xs.isEmpty
  | .obj fs => ¬fs.isEmpty

/-- First value bound to key `k` in an ordered association list. -/
def pyLookup (fields : List (String × JValue)) (k : String) : Option JValue :=
  (fields.find? (fun kv => kv.1 = k)).map (fun kv => kv.2)

/-- Python subscripting `v[k]` with a string key: dict lookup (with
`KeyError`), `TypeError` on lists, strings and everything else. -/
def pySubscript (v : JValue) (k : String) : Except PyErr JValue :=
  match v with
  | .obj fs =>
    match pyLookup fs k with
    | some x => .ok x
    | none => .error (.keyError k)
  | .arr _ => .error (.typeError "list indices must be integers or slices, not str")
  | .str _ => .error (.typeError "string indices must be integers")
  | _ => .error (.typeError "object is not subscriptable")

/-- The sequence a Python `for` loop (or `iter`) runs over: a dict yields its
keys in insertion order, a list its elements, a string its characters;
everything else raises `TypeError`. -/
def pyIterItems (v : JValue) : Except PyErr (List JValue) :=
  match v with
  | .obj fs => .ok (fs.map (fun kv => JValue.str kv.1))
  | .arr xs => .ok xs
  | .str s => .ok (s.data.map (fun c => JValue.str (String.singleton c)))
  | _ => .error (.typeError "object is not iterable")

/-- `next(iter(v))`: the first item of the iteration, `StopIteration` when it
is empty. -/
def pyNextIter (v : JValue) : Except PyErr JValue :=
  match pyIterItems v with
  | .error e => .error e
  | .ok [] => .error .stopIter
  | .ok (x :: _) => .ok x

/-- Python attribute access on a JSON-derived value.  Every value the `json`
module produces is a `dict`, `list`, `str`, `int`, `float`, `bool` or `None`;
none of those types carries a user attribute such as `expires_date`, so the
access raises `AttributeError`. -/
def pyGetattr (_v : JValue) (attr : String) : Except PyErr JValue :=
  .error (.attributeError attr)

/-- Keyword-argument binding for one required field of a `NamedTuple`
constructor call `T(**fields)`: missing key is a `TypeError`. -/
def kwargsGet (fields : List (String × JValue)) (k : String) : Except PyErr JValue :=
  match pyLookup fields k with
  | some x => .ok x
  | none => .error (.typeError ("missing required argument: " ++ k))

/-- The `TypeError` a constructor call `T(**fields)` raises when `fields`
holds a key that is no field of `T`. -/
def kwargsExact (fields : List (String × JValue)) (allowed : List String) :
    Except PyErr Unit :=
  if fields.all (fun kv => allowed.contains kv.1) then .ok ()
  else .error (.typeError "unexpected keyword argument")

/-! ## `response.py` records, as they exist at runtime

`Subscriber(**data)` and friends bind raw decoded JSON to the fields; the
`NamedTuple` type annotations in `response.py` (`Dict[str, Subscription]`
and the like) are not enforced at runtime, so the fields hold `JValue`s. -/

/-- `response.py`: `class SubscriberAttribute(NamedTuple)` — the one record
the client also takes as *input* (attribute updates, purchase payloads). -/
structure SubscriberAttribute where
  value : String
  updated_at_ms : Int
  deriving DecidableEq, Repr

/-- `response.py`: `class Subscriber(NamedTuple)`.  Field values are whatever
JSON the constructor was called with (see the section comment). -/
structure Subscriber where
  original_app_user_id : JValue
  original_application_version : JValue
  first_seen : JValue
  last_seen : JValue
  management_url : JValue
  original_purchase_date : JValue
  other_purchases : JValue
  entitlements : JValue
  subscriptions : JValue
  non_subscriptions : JValue
  subscriber_attributes : JValue

/-- `response.py`: `class Package(NamedTuple)`. -/
structure Package where
  identifier : JValue
  platform_product_identifier : JValue

/-- `response.py`: `class Offering(NamedTuple)`. -/
structure Offering where
  description : JValue
  identifier : JValue
  packages : List Package

/-- `response.py`: `class Offerings(NamedTuple)`. -/
structure Offerings where
  current_offering_id : JValue
  offerings : List Offering

/-! ## `datetime.strptime(_, "%Y-%m-%dT%H:%M:%SZ")` -/

/-- Value of a decimal digit character. -/
def digitVal (c : Char) : Option Nat :=
  if c.isDigit then some (c.toNat - 48) else none

/-- A run of decimal digits as a number (`none` on a non-digit). -/
def parseNatDigits (cs : List Char) : Option Nat :=
  cs.foldlM (fun acc c => (digitVal c).map (fun d => acc * 10 + d)) 0

/-- Gregorian leap year. -/
def isLeapYear (y : Nat) : Bool :=
  y % 4 = 0 && (y % 100 ≠ 0 || y % 400 = 0)

/-- Length of month `m` of year `y`. -/
def daysInMonth (y m : Nat) : Nat :=
  if m = 2 then (if isLeapYear y then 29 else 28)
  else if m = 4 ∨ m = 6 ∨ m = 9 ∨ m = 11 then 30
  else 31

/-- `datetime.strptime(v, "%Y-%m-%dT%H:%M:%SZ")`: `TypeError` unless `v` is a
string, `ValueError` unless it matches the fixed format with in-range
components. -/
def strptimeZ (v : JValue) : Except PyErr PyDatetime :=
  match v with
  | .str s =>
    match s.data with
    | [y1, y2, y3, y4, '-', m1, m2, '-', d1, d2, 'T',
       h1, h2, ':', n1, n2, ':', s1, s2, 'Z'] =>
      match parseNatDigits [y1, y2, y3, y4], parseNatDigits [m1, m2],
          parseNatDigits [d1, d2], parseNatDigits [h1, h2],
          parseNatDigits [n1, n2], parseNatDigits [s1, s2] with
      | some y, some mo, some d, some h, some mi, some se =>
        if 1 ≤ y ∧ 1 ≤ mo ∧ mo ≤ 12 ∧ 1 ≤ d ∧ d ≤ daysInMonth y mo ∧
            h ≤ 23 ∧ mi ≤ 59 ∧ se ≤ 59 then
          .ok ⟨y, mo, d, h, mi, se, 0⟩
        else .error (.valueError "time data does not match format")
      | _, _, _, _, _, _ => .error (.valueError "time data does not match format")
    | _ => .error (.valueError "time data does not match format")
  | _ => .error (.typeError "strptime() argument 1 must be str")

/-! ## `client.py` -/

/-- A Python value the client places in a request payload dict.  `enumMember`
is an `enum.Enum` member identified by its wire value (the code puts the
member object itself in the dict); `attrs` is a `Dict[str,
SubscriberAttribute]` argument. -/
inductive PyVal where
  | none : PyVal
  | str : String → PyVal
  | rat : ℚ → PyVal
  | enumMember : String → PyVal
  | attrs : List (String × SubscriberAttribute) → PyVal
  deriving DecidableEq, Repr

/-- The credentials a `Client` instance holds. -/
structure Client where
  public_key : Option String
  secret_key : Option String
  deriving DecidableEq, Repr

/-- `Client.__init__`: with neither key, raises
`Exception("Either public key or secret key must be set")`. -/
def client_init (public_key secret_key : Option String) : Except PyErr Client :=
  if public_key = none ∧ secret_key = none then
    .error (.exceptionMsg "Either public key or secret key must be set")
  else .ok ⟨public_key, secret_key⟩

/-- `Client.base_api_url`. -/
def Client.base_api_url : String := "https://api.revenuecat.com/v1"

/-- `if self.secret_key:` — Python truthiness of an optional string
(`None` and `""` are falsy). -/
def pyTruthyStrOpt : Option String → Bool
  | none => false
  | some s => s ≠ ""

/-- What the HTTP transport does on one call of
`self.session.request(...)`: a status plus body (`none` standing for a body
that is not valid JSON), a `requests.ConnectionError`, or a
`requests.Timeout`. -/
inductive TransportOutcome where
  | response : Nat → Option JValue → TransportOutcome
  | connectionFailure : TransportOutcome
  | timedOut : TransportOutcome

/-- `make_request`'s outcome together with whether the transport was invoked
at all (zero vs one `session.request` calls). -/
structure MRResult where
  result : Except PyErr JValue
  transportInvoked : Bool

/-- The URL `make_request` builds: `self.base_api_url + encode(path)`. -/
def make_request_url (path : String) : String :=
  Client.base_api_url ++ encode path

/-- `response.raise_for_status()`: raises `requests.HTTPError` exactly for
4xx and 5xx status codes. -/
def raiseForStatusFails (status : Nat) : Bool :=
  decide (400 ≤ status) && decide (status < 600)

/-- The `try`/`except` around `self.session.request` plus the `return
response.json()` after it: `ConnectionError`/`Timeout` become `Unavailable`,
any other exception inside the `try` (i.e. `raise_for_status`) becomes
`RevenueCatError`, and `response.json()` runs *outside* the `try`, so a
non-JSON body raises `json.JSONDecodeError` unwrapped. -/
def runTransport (t : TransportOutcome) : Except PyErr JValue :=
  match t with
  | .connectionFailure => .error .unavailable
  | .timedOut => .error .unavailable
  | .response status body =>
    if raiseForStatusFails status then .error .revenueCatError
    else match body with
      | none => .error .jsonDecodeError
      | some j => .ok j

/-- Whether `json.dumps` can serialize one payload value: `None`, `str` and
`float` values serialize, and a `Dict[str, SubscriberAttribute]` serializes
(a `NamedTuple` renders as a JSON array) — but a plain `Enum` member does
not: `json.dumps` raises `TypeError`. -/
def PyVal.dumpsOk : PyVal → Bool
  | .enumMember _ => false
  | _ => true

/-- Whether `data = json.dumps(payload) if payload is not None else None`
(client.py line 48) completes without raising: vacuously with no payload,
otherwise iff every value of the payload dict is serializable. -/
def payloadSerializable : Option (List (String × PyVal)) → Bool
  | Option.none => true
  | some p => p.all (fun kv => PyVal.dumpsOk kv.2)

/-- The `TypeError` `json.dumps` raises on a payload holding an `Enum`
member.  Python's message names the concrete `Enum` subclass
(`PromotionDuration`, `PaymentMode`); the model flattens members to their
wire tag, so the message names `Enum` generically. -/
def dumpsTypeError : PyErr :=
  .typeError "Object of type Enum is not JSON serializable"

/-- The part of `make_request` after the body is serialized (lines 54-72):
if `key` names a credential the client lacks, the builtin `Exception` is
raised before the transport is touched; otherwise the transport runs and its
outcome is classified by `runTransport`. -/
def make_request_auth (c : Client) (key : Option String)
    (t : TransportOutcome) : MRResult :=
  match key with
  | some k =>
    match (if k = "public" then c.public_key else c.secret_key) with
    | none =>
      ⟨.error (.exceptionMsg ("This functionality requires " ++ k ++ " key to be set")),
       false⟩
    | some _ => ⟨runTransport t, true⟩
  | none => ⟨runTransport t, true⟩

/-- `Client.make_request(method, path, payload, platform, key, timeout)`.
The URL and the serialized body `data = json.dumps(payload)` are computed
first (lines 47-48): a payload `json.dumps` cannot serialize raises
`TypeError` there, before the credential check and before any transport
call.  Then the credential check and the dispatch (`make_request_auth`). -/
def make_request (c : Client) (_method path : String)
    (payload : Option (List (String × PyVal))) (_platform : Option Platform)
    (key : Option String) (t : TransportOutcome) : MRResult :=
  let _url := make_request_url path
  match payload with
  | some p =>
    if p.all (fun kv => PyVal.dumpsOk kv.2) then make_request_auth c key t
    else ⟨.error dumpsTypeError, false⟩
  | none => make_request_auth c key t

/-- The arguments one public operation passes to `make_request`. -/
structure RequestSpec where
  method : String
  path : String
  payload : Option (List (String × PyVal))
  platform : Option Platform
  key : Option String

/-- Dispatch one operation's request through `make_request`. -/
def Client.call (c : Client) (r : RequestSpec) (t : TransportOutcome) : MRResult :=
  make_request c r.method r.path r.payload r.platform r.key t

/-! ## The request each public operation builds (method, path, payload,
platform, key — copied from the body of the corresponding `client.py`
method). -/

/-- `get_subscriber_info`: `key = "secret" if self.secret_key else "public"`. -/
def get_subscriber_info_request (c : Client) (app_user_id : String) : RequestSpec :=
  { method := "GET"
    path := "/subscribers/" ++ app_user_id
    payload := Option.none
    platform := Option.none
    key := some (if pyTruthyStrOpt c.secret_key then "secret" else "public") }

/-- `update_subscriber_attrs`. -/
def update_subscriber_attrs_request (app_user_id : String)
    (attrs : List (String × SubscriberAttribute)) : RequestSpec :=
  { method := "POST"
    path := "/subscribers/" ++ app_user_id ++ "/attributes"
    payload := some [("attributes", PyVal.attrs attrs)]
    platform := Option.none
    key := some "public" }

/-- `delete_subscriber`. -/
def delete_subscriber_request (app_user_id : String) : RequestSpec :=
  { method := "DELETE"
    path := "/subscribers/" ++ app_user_id
    payload := Option.none
    platform := Option.none
    key := some "secret" }

/-- The `payload` dict literal of `create_purchase`, key for key.  Every key
is written unconditionally; an optional argument left at its default `None`
puts Python `None` (JSON `null` once `json.dumps` serializes the dict) under
its key.  `is_restore` is sent as `str(is_restore).lower()`. -/
def create_purchase_payload (app_user_id : String) (fetch_token : String)
    (product_id : Option String) (price : Option ℚ) (currency : Option String)
    (payment_mode : Option PaymentMode) (introductory_price : Option ℚ)
    (is_restore : Bool) (presented_offering_identifier : Option String)
    (attributes : Option (List (String × SubscriberAttribute))) :
    List (String × PyVal) :=
  [("app_user_id", PyVal.str app_user_id),
   ("fetch_token", PyVal.str fetch_token),
   ("product_id", product_id.elim PyVal.none PyVal.str),
   ("price", price.elim PyVal.none PyVal.rat),
   ("currency", currency.elim PyVal.none PyVal.str),
   ("payment_mode", payment_mode.elim PyVal.none (fun m => PyVal.enumMember m.value)),
   ("introductory_price", introductory_price.elim PyVal.none PyVal.rat),
   ("is_restore", PyVal.str (if is_restore then "true" else "false")),
   ("presented_offering_identifier",
     presented_offering_identifier.elim PyVal.none PyVal.str),
   ("attributes", attributes.elim PyVal.none PyVal.attrs)]

/-- `create_purchase`: `POST /receipts` with the payload above, the platform
header, and the public key. -/
def create_purchase_request (app_user_id : String) (platform : Platform)
    (fetch_token : String) (product_id : Option String) (price : Option ℚ)
    (currency : Option String) (payment_mode : Option PaymentMode)
    (introductory_price : Option ℚ) (is_restore : Bool)
    (presented_offering_identifier : Option String)
    (attributes : Option (List (String × SubscriberAttribute))) : RequestSpec :=
  { method := "POST"
    path := "/receipts"
    payload := some (create_purchase_payload app_user_id fetch_token product_id
      price currency payment_mode introductory_price is_restore
      presented_offering_identifier attributes)
    platform := some platform
    key := some "public" }

/-- `grant_promotional_entitlement`.  The source builds `path` with a
*triple-quoted* f-string spanning three lines, so the path value starts with
a newline and eight spaces of indentation and ends with a newline and eight
spaces.  The payload holds the `PromotionDuration` member and
`to_timestamp(start_time)`. -/
def grant_promotional_entitlement_request (app_user_id entitlement_identifier : String)
    (duration : PromotionDuration) (start_time : PyDatetime) : RequestSpec :=
  { method := "POST"
    path := "\n        /subscribers/" ++ app_user_id ++ "/entitlements/" ++
      entitlement_identifier ++ "/promotional\n        "
    payload := some [("duration", PyVal.enumMember duration.value),
                     ("start_time_ms", PyVal.rat (to_timestamp start_time))]
    platform := Option.none
    key := some "secret" }

/-- `revoke_promotinal_entitlements` (the source's spelling): the same
triple-quoted-path pattern as the grant operation. -/
def revoke_promotinal_entitlements_request
    (app_user_id entitlement_identifier : String) : RequestSpec :=
  { method := "POST"
    path := "\n        /subscribers/" ++ app_user_id ++ "/entitlements/" ++
      entitlement_identifier ++ "/revoke_promotionals\n        "
    payload := Option.none
    platform := Option.none
    key := some "secret" }

/-- `revoke_google_subscription`. -/
def revoke_google_subscription_request
    (app_user_id product_identifier : String) : RequestSpec :=
  { method := "POST"
    path := "/subscribers/" ++ app_user_id ++ "/subscriptions/" ++
      product_identifier ++ "/revoke"
    payload := Option.none
    platform := Option.none
    key := some "secret" }

/-- `defer_google_subscription`: payload carries
`expiry_time_ms = to_timestamp(expiry_time)`. -/
def defer_google_subscription_request (app_user_id product_identifier : String)
    (expiry_time : PyDatetime) : RequestSpec :=
  { method := "POST"
    path := "/subscribers/" ++ app_user_id ++ "/subscriptions/" ++
      product_identifier ++ "/defer"
    payload := some [("expiry_time_ms", PyVal.rat (to_timestamp expiry_time))]
    platform := Option.none
    key := some "secret" }

/-- `refund_google_subscription`. -/
def refund_google_subscription_request
    (app_user_id product_identifier : String) : RequestSpec :=
  { method := "POST"
    path := "/subscribers/" ++ app_user_id ++ "/subscriptions/" ++
      product_identifier ++ "/refund"
    payload := Option.none
    platform := Option.none
    key := some "secret" }

/-- `get_offerings`: note the path in the source has no leading slash. -/
def get_offerings_request (app_user_id : String) (platform : Platform) : RequestSpec :=
  { method := "GET"
    path := "subscribers/" ++ app_user_id ++ "/offerings"
    payload := Option.none
    platform := some platform
    key := some "public" }

/-- `override_current_offering`. -/
def override_current_offering_request (app_user_id offering_uuid : String) : RequestSpec :=
  { method := "POST"
    path := "/subscribers/" ++ app_user_id ++ "/offerings/" ++ offering_uuid ++
      "/override"
    payload := Option.none
    platform := Option.none
    key := some "secret" }

/-- `delete_current_offering_override`. -/
def delete_current_offering_override_request (app_user_id : String) : RequestSpec :=
  { method := "DELETE"
    path := "/subscribers/" ++ app_user_id ++ "/offerings/override"
    payload := Option.none
    platform := Option.none
    key := some "secret" }

/-! ## Response mapping (`generate_subscriber_response`,
`generate_offerings_response`) and the derived operations -/

/-- The field names of `Subscriber` in declaration order. -/
def subscriberFields : List String :=
  ["original_app_user_id", "original_application_version", "first_seen",
   "last_seen", "management_url", "original_purchase_date", "other_purchases",
   "entitlements", "subscriptions", "non_subscriptions", "subscriber_attributes"]

/-- `Client.generate_subscriber_response(data)`, i.e. `Subscriber(**data)`:
keyword-bind the raw JSON object's entries to the fields.  Every field but
`subscriber_attributes` (default `None`) is required; an unknown key is a
`TypeError`; the bound values are the raw JSON values, undecoded. -/
def generate_subscriber_response (data : JValue) : Except PyErr Subscriber :=
  match data with
  | .obj fs => do
    let _ ← kwargsExact fs subscriberFields
    let f1 ← kwargsGet fs "original_app_user_id"
    let f2 ← kwargsGet fs "original_application_version"
    let f3 ← kwargsGet fs "first_seen"
    let f4 ← kwargsGet fs "last_seen"
    let f5 ← kwargsGet fs "management_url"
    let f6 ← kwargsGet fs "original_purchase_date"
    let f7 ← kwargsGet fs "other_purchases"
    let f8 ← kwargsGet fs "entitlements"
    let f9 ← kwargsGet fs "subscriptions"
    let f10 ← kwargsGet fs "non_subscriptions"
    let f11 := (pyLookup fs "subscriber_attributes").getD JValue.null
    .ok ⟨f1, f2, f3, f4, f5, f6, f7, f8, f9, f10, f11⟩
  | _ => .error (.typeError "argument after ** must be a mapping")

/-- `Package(**p)`. -/
def packageOfKwargs (p : JValue) : Except PyErr Package :=
  match p with
  | .obj fs => do
    let _ ← kwargsExact fs ["identifier", "platform_product_identifier"]
    let i ← kwargsGet fs "identifier"
    let ppi ← kwargsGet fs "platform_product_identifier"
    .ok ⟨i, ppi⟩
  | _ => .error (.typeError "argument after ** must be a mapping")

/-- `Offering(**o, packages=packages)`: `o`'s entries plus the keyword
`packages`; an `o` that itself has a `packages` key is a `TypeError`
(duplicate keyword). -/
def offeringOfKwargs (o : JValue) (packages : List Package) : Except PyErr Offering :=
  match o with
  | .obj fs =>
    if fs.any (fun kv => kv.1 = "packages") then
      .error (.typeError "got multiple values for keyword argument packages")
    else do
      let _ ← kwargsExact fs ["description", "identifier"]
      let d ← kwargsGet fs "description"
      let i ← kwargsGet fs "identifier"
      .ok ⟨d, i, packages⟩
  | _ => .error (.typeError "argument after ** must be a mapping")

/-- `Client.generate_offerings_response(data)`, statement for statement:

    for o in data["offerings"]:
        packages = []
        for p in data["offerings"]["packages"]:   # sic — not o["packages"]
            packages.append(Package(**p))
        offerings.append(Offering(**o, packages=packages))

The inner loop subscripts `data["offerings"]` — the *list* of offerings —
with the string `"packages"`. -/
def generate_offerings_response (data : JValue) : Except PyErr Offerings := do
  let offsVal ← pySubscript data "offerings"
  let oItems ← pyIterItems offsVal
  let offerings ← oItems.mapM (fun o => do
    let offsAgain ← pySubscript data "offerings"
    let pkgsVal ← pySubscript offsAgain "packages"
    let pItems ← pyIterItems pkgsVal
    let packages ← pItems.mapM packageOfKwargs
    offeringOfKwargs o packages)
  let coid ← pySubscript data "current_offering_id"
  .ok ⟨coid, offerings⟩

/-- `Client.get_subscriber_info(app_user_id)`: dispatch, then decode
`data["subscriber"]`. -/
def get_subscriber_info (c : Client) (app_user_id : String)
    (t : TransportOutcome) : Except PyErr Subscriber := do
  let data ← (Client.call c (get_subscriber_info_request c app_user_id) t).result
  let sub ← pySubscript data "subscriber"
  generate_subscriber_response sub

/-- The body of `Client.is_user_subscribed` after `info` is fetched:

    if info.subscriptions:
        expires_date = datetime.strptime(
            next(iter(info.subscriptions)).expires_date, "%Y-%m-%dT%H:%M:%SZ")
        if expires_date >= datetime.now():
            is_subscribed = True

`info.subscriptions` holds the raw JSON dict, so `next(iter(...))` yields its
first *key* (a string), and the `.expires_date` attribute access on it raises.
Python compares `datetime` objects componentwise; for in-range components
that order coincides with the order of `epochMicros`, used here. -/
def is_user_subscribed_check (info : Subscriber) (now : PyDatetime) :
    Except PyErr Bool :=
  if truthy info.subscriptions then do
    let firstItem ← pyNextIter info.subscriptions
    let ed ← pyGetattr firstItem "expires_date"
    let expires_date ← strptimeZ ed
    pure (decide (now.epochMicros ≤ expires_date.epochMicros))
  else pure false

/-- `Client.is_user_subscribed(app_user_id)`. -/
def is_user_subscribed (c : Client) (app_user_id : String) (t : TransportOutcome)
    (now : PyDatetime) : Except PyErr Bool := do
  let info ← get_subscriber_info c app_user_id t
  is_user_subscribed_check info now

/-- `Client.get_offerings(app_user_id, platform)`: dispatch, then
`return self.get_offerings_response(data)` — but `Client` defines no
`get_offerings_response` (the decoder is named `generate_offerings_response`),
so the attribute lookup on `self` raises `AttributeError` and no decoding
runs. -/
def get_offerings (c : Client) (app_user_id : String) (platform : Platform)
    (t : TransportOutcome) : Except PyErr Offerings := do
  let _data ← (Client.call c (get_offerings_request app_user_id platform) t).result
  .error (.attributeError "'Client' object has no attribute 'get_offerings_response'")

/-! ## Helpers for the statements, and shared lemmas -/

/-- Value under key `k` of a payload dict. -/
def payloadLookup (payload : List (String × PyVal)) (k : String) : Option PyVal :=
  (payload.find? (fun kv => kv.1 = k)).map (fun kv => kv.2)

/-- The keys of a payload dict, in order. -/
def payloadKeys (payload : List (String × PyVal)) : List String :=
  payload.map (fun kv => kv.1)

/-- Whether the credential `make_request` would pick for `key` is present on
the client (so the local check at the top of `make_request` passes). -/
def keyAvailable (c : Client) (key : Option String) : Bool :=
  match key with
  | Option.none => true
  | some k => (if k = "public" then c.public_key else c.secret_key).isSome

theorem raiseForStatusFails_iff (s : Nat) :
    raiseForStatusFails s = true ↔ (400 ≤ s ∧ s < 600) := by
  simp [raiseForStatusFails]

/-- When the payload serializes, `make_request` reaches the credential
check; when the requested credential is also present, it reaches the
transport and classifies its outcome with `runTransport`. -/
theorem make_request_runs (c : Client) (m p : String)
    (pl : Option (List (String × PyVal))) (pf : Option Platform)
    (key : Option String) (t : TransportOutcome)
    (hser : payloadSerializable pl = true)
    (h : keyAvailable c key = true) :
    make_request c m p pl pf key t = ⟨runTransport t, true⟩ := by
  have hauth : make_request_auth c key t = ⟨runTransport t, true⟩ := by
    cases key with
    | none => rfl
    | some k =>
      simp only [keyAvailable] at h
      simp only [make_request_auth]
      cases hk : (if k = "public" then c.public_key else c.secret_key) with
      | none => rw [hk] at h; simp at h
      | some tok => rfl
  cases pl with
  | none => exact hauth
  | some q =>
    simp only [payloadSerializable] at hser
    simp only [make_request, hser, if_true]
    exact hauth

/-! ## Concrete fixtures -/

/-- A client holding both keys. -/
def clientBoth : Client := ⟨some "pk", some "sk"⟩

/-- A client constructed with only a public key. -/
def clientPublicOnly : Client := ⟨some "pk", Option.none⟩

/-- An evaluation instant (`datetime.now()`). -/
def now2023 : PyDatetime := ⟨2023, 6, 1, 12, 0, 0, 0⟩

/-- A subscription JSON entry whose expiry, 2999-01-01, is far in the
future relative to `now2023`. -/
def subJson1 : JValue :=
  JValue.obj [("expires_date", .str "2999-01-01T00:00:00Z"),
    ("purchase_date", .str "2020-01-01T00:00:00Z"),
    ("original_purchase_date", .str "2020-01-01T00:00:00Z"),
    ("ownership_type", .str "PURCHASED"),
    ("period_type", .str "normal"),
    ("store", .str "app_store"),
    ("is_sandbox", .bool false),
    ("unsubscribe_detected_at", .null),
    ("billing_issues_detected_at", .null)]

/-- An entitlement JSON entry. -/
def entJson1 : JValue :=
  JValue.obj [("expires_date", .str "2999-01-01T00:00:00Z"),
    ("purchase_date", .str "2020-01-01T00:00:00Z"),
    ("product_identifier", .str "product.monthly")]

/-- A one-time-purchase JSON entry. -/
def nonSubJson1 : JValue :=
  JValue.obj [("id", .str "txn1"),
    ("purchase_date", .str "2020-01-01T00:00:00Z"),
    ("store", .str "app_store"),
    ("is_sandbox", .bool false)]

/-- A subscriber-attribute JSON entry. -/
def attrJson1 : JValue :=
  JValue.obj [("value", .str "blue"), ("updated_at_ms", .num 1600000000000)]

/-- A full subscriber JSON body (the value under `"subscriber"`), with one
entitlement, one *unexpired* subscription, one non-subscription and one
subscriber attribute. -/
def subscriberFixture : JValue :=
  JValue.obj [("original_app_user_id", .str "user-1"),
    ("original_application_version", .str "1.0"),
    ("first_seen", .str "2020-01-01T00:00:00Z"),
    ("last_seen", .str "2021-01-01T00:00:00Z"),
    ("management_url", .null),
    ("original_purchase_date", .str "2020-01-01T00:00:00Z"),
    ("other_purchases", .obj []),
    ("entitlements", .obj [("pro", entJson1)]),
    ("subscriptions", .obj [("product.monthly", subJson1)]),
    ("non_subscriptions", .obj [("ns1", nonSubJson1)]),
    ("subscriber_attributes", .obj [("favorite_color", attrJson1)])]

/-- An offerings JSON body with two offerings, each with a distinct
one-package list, exactly the §8.7 fixture shape. -/
def offeringsFixture : JValue :=
  JValue.obj [("current_offering_id", .str "default"),
    ("offerings", .arr [
      .obj [("description", .str "first offering"),
        ("identifier", .str "off1"),
        ("packages", .arr [.obj [("identifier", .str "p1"),
          ("platform_product_identifier", .str "prod1")]])],
      .obj [("description", .str "second offering"),
        ("identifier", .str "off2"),
        ("packages", .arr [.obj [("identifier", .str "p2"),
          ("platform_product_identifier", .str "prod2")]])]])]

/-! ## The claims -/

/-- C1 (refuted; the code is the bug).  The claim says `is_user_subscribed`
returns `true` iff some subscription's expiry is strictly in the future.  In
the code, `info.subscriptions` holds the raw JSON dict, `next(iter(...))`
yields its first *key* (a string), and `.expires_date` on that string raises
`AttributeError` — shown here on a subscriber with one unexpired
subscription.  The second conjunct: on *every* subscriber and instant the
check either returns `false` (empty/falsy subscriptions) or raises; it can
never return `true`. -/
theorem c1_is_user_subscribed_cannot_return_true :
    is_user_subscribed clientBoth "user-1"
        (.response 200 (some (JValue.obj [("subscriber", subscriberFixture)])))
        now2023
      = .error (.attributeError "expires_date") ∧
    (∀ (info : Subscriber) (now : PyDatetime),
      is_user_subscribed_check info now = .ok false ∨
        ∃ e, is_user_subscribed_check info now = .error e) := by
  refine ⟨rfl, ?_⟩
  intro info now
  unfold is_user_subscribed_check
  cases h : truthy info.subscriptions with
  | false => left; rfl
  | true =>
    simp only [h, if_true]
    cases hni : pyNextIter info.subscriptions with
    | error e => right; exact ⟨e, rfl⟩
    | ok v => right; exact ⟨.attributeError "expires_date", rfl⟩

/-- C2 (refuted; the code is the bug).  The claim says every reserved
character of an interpolated app-user ID — path separators included — is
percent-encoded.  `utils.encode` is `urllib.parse.quote` with its default
`safe='/'`: a `/` inside the ID passes through unescaped, so the ID
`"a/b"` produces the path `/subscribers/a/b`, from whose ID segment the
original ID cannot be recovered.  Space, `%` and non-ASCII characters *are*
escaped (last two conjuncts), so the failure is specific to `/`. -/
theorem c2_encode_leaves_slash_unescaped :
    encode "a/b" = "a/b" ∧
    make_request_url ("/subscribers/" ++ "a/b") =
      "https://api.revenuecat.com/v1/subscribers/a/b" ∧
    encode "a b%" = "a%20b%25" ∧
    encode "é" = "%C3%A9" :=
  ⟨rfl, rfl, rfl, rfl⟩

/-- The outcome of a secret-tier call on a client with no secret key, for an
operation whose payload `json.dumps` can serialize: the builtin `Exception`
from the credential check, with the transport never invoked. -/
def missingSecretKeyOutcome : MRResult :=
  ⟨.error (.exceptionMsg "This functionality requires secret key to be set"),
   false⟩

/-- C3 (corrected).  On a client holding only a public key, every request
tagged `key="secret"` fails with zero transport invocations (first
conjunct).  Each secret-tier operation except the promotional grant —
deletion, promotional revocation, the three Google-subscription operations,
the two offering overrides — fails with the builtin `Exception` of the
credential check (its payload, if any, serializes).
`grant_promotional_entitlement` never reaches the credential check: its
payload holds the plain `PromotionDuration` member, so
`data = json.dumps(payload)` at the top of `make_request` raises `TypeError`
first — still locally, still zero transport invocations, whatever keys the
client holds.  No `ConfigurationError` class exists or is raised on any of
these paths. -/
theorem c3_secret_ops_fail_locally_before_transport :
    (∀ (pk : String) (r : RequestSpec) (t : TransportOutcome),
      r.key = some "secret" →
        (Client.call ⟨some pk, Option.none⟩ r t).transportInvoked = false) ∧
    (∀ (pk uid : String) (t : TransportOutcome),
      Client.call ⟨some pk, Option.none⟩ (delete_subscriber_request uid) t =
        missingSecretKeyOutcome) ∧
    (∀ (pk uid eid : String) (t : TransportOutcome),
      Client.call ⟨some pk, Option.none⟩
        (revoke_promotinal_entitlements_request uid eid) t =
          missingSecretKeyOutcome) ∧
    (∀ (pk uid pid : String) (t : TransportOutcome),
      Client.call ⟨some pk, Option.none⟩
        (revoke_google_subscription_request uid pid) t =
          missingSecretKeyOutcome) ∧
    (∀ (pk uid pid : String) (et : PyDatetime) (t : TransportOutcome),
      Client.call ⟨some pk, Option.none⟩
        (defer_google_subscription_request uid pid et) t =
          missingSecretKeyOutcome) ∧
    (∀ (pk uid pid : String) (t : TransportOutcome),
      Client.call ⟨some pk, Option.none⟩
        (refund_google_subscription_request uid pid) t =
          missingSecretKeyOutcome) ∧
    (∀ (pk uid ou : String) (t : TransportOutcome),
      Client.call ⟨some pk, Option.none⟩
        (override_current_offering_request uid ou) t =
          missingSecretKeyOutcome) ∧
    (∀ (pk uid : String) (t : TransportOutcome),
      Client.call ⟨some pk, Option.none⟩
        (delete_current_offering_override_request uid) t =
          missingSecretKeyOutcome) ∧
    (∀ (c : Client) (uid eid : String) (d : PromotionDuration)
      (st : PyDatetime) (t : TransportOutcome),
      Client.call c (grant_promotional_entitlement_request uid eid d st) t =
        ⟨.error dumpsTypeError, false⟩) := by
  refine ⟨?_, fun pk uid t => rfl, fun pk uid eid t => rfl,
    fun pk uid pid t => rfl, fun pk uid pid et t => rfl,
    fun pk uid pid t => rfl, fun pk uid ou t => rfl, fun pk uid t => rfl,
    fun c uid eid d st t => rfl⟩
  intro pk r t h
  obtain ⟨m, p, pl, pf, k⟩ := r
  simp only at h
  subst h
  cases pl with
  | none => rfl
  | some q =>
    simp only [Client.call, make_request]
    split
    · rfl
    · rfl

/-- C3, the claim as stated is false: the error raised at the local
credential check is the builtin `Exception`, which is not the spec's
`ConfigurationError`. -/
theorem c3_error_is_not_configuration_error :
    (Client.call clientPublicOnly (delete_subscriber_request "u")
        (.response 200 (some JValue.null))).result =
      .error (.exceptionMsg "This functionality requires secret key to be set") ∧
    PyErr.exceptionMsg "This functionality requires secret key to be set" ≠
      PyErr.configurationError :=
  ⟨rfl, by decide⟩

/-- C4 (refuted; the code is the bug).  On the two-offering fixture,
`get_offerings` raises `AttributeError` (it calls
`self.get_offerings_response`, a method that does not exist), and even the
decoder it meant to call, `generate_offerings_response`, raises `TypeError`,
because its inner loop subscripts the *list* `data["offerings"]` with the
string `"packages"` instead of taking each offering's own `o["packages"]`.
No `Offerings` value with per-offering packages is ever produced. -/
theorem c4_offerings_decoding_crashes :
    get_offerings clientBoth "u" Platform.IOS (.response 200 (some offeringsFixture))
      = .error (.attributeError
          "'Client' object has no attribute 'get_offerings_response'") ∧
    generate_offerings_response offeringsFixture
      = .error (.typeError "list indices must be integers or slices, not str") :=
  ⟨rfl, rfl⟩

/-- C5 (refuted; the code is the bug).  The claim says the Subscriber mapping
decodes each nested map entry-by-entry into typed records
(`Entitlement`, `Subscription`, ...).  `Subscriber(**data)` does no such
decoding: the four map fields keep the raw JSON dicts verbatim (first
conjunct — every nested value is the unchanged fixture JSON), contradicting
`response.py`'s own `Dict[str, Subscription]`-style annotations; a typed
field access on such an entry raises `AttributeError` at runtime (second
conjunct), which is exactly what breaks `is_user_subscribed` (C1). -/
theorem c5_subscriber_mapping_keeps_raw_json :
    generate_subscriber_response subscriberFixture =
      .ok { original_app_user_id := .str "user-1"
            original_application_version := .str "1.0"
            first_seen := .str "2020-01-01T00:00:00Z"
            last_seen := .str "2021-01-01T00:00:00Z"
            management_url := .null
            original_purchase_date := .str "2020-01-01T00:00:00Z"
            other_purchases := .obj []
            entitlements := .obj [("pro", entJson1)]
            subscriptions := .obj [("product.monthly", subJson1)]
            non_subscriptions := .obj [("ns1", nonSubJson1)]
            subscriber_attributes := .obj [("favorite_color", attrJson1)] } ∧
    pyGetattr subJson1 "expires_date" = .error (.attributeError "expires_date") :=
  ⟨rfl, rfl⟩

/-- C6 (corrected).  First block: for every call whose payload `json.dumps`
can serialize and whose credential check passes, `make_request` classifies
the transport outcome — connection failure and timeout raise `Unavailable`;
an HTTP 4xx/5xx status raises `RevenueCatError` (the code's name for the
spec's RemoteError); a non-error status whose body is not valid JSON raises
the JSON library's own `JSONDecodeError`, *not* `RevenueCatError`, because
`response.json()` runs outside the `try` block; and otherwise the call
returns the fully parsed body, never a partial one.  Second block: a payload
`json.dumps` cannot serialize (an `Enum`-bearing one, as
`grant_promotional_entitlement` builds) raises `TypeError` at serialization,
before the transport is ever invoked — a failure outside the claim's
taxonomy altogether. -/
theorem c6_make_request_error_taxonomy :
    (∀ (c : Client) (m p : String) (pl : Option (List (String × PyVal)))
      (pf : Option Platform) (key : Option String) (t : TransportOutcome),
      payloadSerializable pl = true →
      keyAvailable c key = true →
      ((t = .connectionFailure ∨ t = .timedOut) →
        (make_request c m p pl pf key t).result = .error .unavailable) ∧
      (∀ status body, t = .response status body → 400 ≤ status → status < 600 →
        (make_request c m p pl pf key t).result = .error .revenueCatError) ∧
      (∀ status, t = .response status Option.none →
        (400 ≤ status ∧ status < 600 → False) →
        (make_request c m p pl pf key t).result = .error .jsonDecodeError) ∧
      (∀ status j, t = .response status (some j) →
        (400 ≤ status ∧ status < 600 → False) →
        (make_request c m p pl pf key t).result = .ok j)) ∧
    (∀ (c : Client) (m p : String) (q : List (String × PyVal))
      (pf : Option Platform) (key : Option String) (t : TransportOutcome),
      payloadSerializable (some q) = false →
      make_request c m p (some q) pf key t = ⟨.error dumpsTypeError, false⟩) := by
  constructor
  · intro c m p pl pf key t hser h
    rw [make_request_runs c m p pl pf key t hser h]
    refine ⟨?_, ?_, ?_, ?_⟩
    · rintro (rfl | rfl) <;> rfl
    · rintro status body rfl h1 h2
      simp [runTransport, raiseForStatusFails, h1, h2]
    · rintro status rfl hno
      simp only [runTransport]
      rw [if_neg (fun hb => hno ((raiseForStatusFails_iff status).mp hb))]
    · rintro status j rfl hno
      simp only [runTransport]
      rw [if_neg (fun hb => hno ((raiseForStatusFails_iff status).mp hb))]
  · intro c m p q pf key t h
    simp only [payloadSerializable] at h
    simp [make_request, h]

/-- C6, the claim as stated is false: a 200 response whose body is not valid
JSON raises the JSON decoder's error, which is not `RevenueCatError` (the
code's RemoteError), because `response.json()` runs outside the `try`. -/
theorem c6_malformed_json_escapes_taxonomy :
    (make_request clientBoth "GET" "/subscribers/u" Option.none Option.none
        (some "public") (.response 200 Option.none)).result =
      .error .jsonDecodeError ∧
    PyErr.jsonDecodeError ≠ PyErr.revenueCatError :=
  ⟨rfl, by decide⟩

/-- C7 (confirmed).  For each of `Platform`, `PromotionDuration` and `Store`:
decoding a member's wire string yields that member back (round-trip), and a
wire string decodes successfully only when it is exactly some member's wire
value — so any string outside the fixed tag set (a case-variant included) is
rejected. -/
theorem c7_enum_wire_roundtrip :
    (∀ p : Platform, Platform.fromValue p.value = some p) ∧
    (∀ w : String, Platform.fromValue w = none ∨
      ∃ p : Platform, Platform.fromValue w = some p ∧ w = p.value) ∧
    (∀ d : PromotionDuration, PromotionDuration.fromValue d.value = some d) ∧
    (∀ w : String, PromotionDuration.fromValue w = none ∨
      ∃ d : PromotionDuration, PromotionDuration.fromValue w = some d ∧ w = d.value) ∧
    (∀ s : Store, Store.fromValue s.value = some s) ∧
    (∀ w : String, Store.fromValue w = none ∨
      ∃ s : Store, Store.fromValue w = some s ∧ w = s.value) := by
  refine ⟨fun p => by cases p <;> rfl, fun w => ?_,
          fun d => by cases d <;> rfl, fun w => ?_,
          fun s => by cases s <;> rfl, fun w => ?_⟩
  all_goals {
    first
      | unfold Platform.fromValue
      | unfold PromotionDuration.fromValue
      | unfold Store.fromValue
    repeat' split
    all_goals first
      | exact Or.inl rfl
      | exact Or.inr ⟨_, rfl, by assumption⟩
  }

/-- C8 (refuted; the code is the bug).  `grant_promotional_entitlement` does
POST with the secret key and a payload carrying the duration and
`start_time_ms = to_timestamp(start_time)` — but the path is built with a
triple-quoted f-string, so it starts and ends with a newline plus eight
spaces of indentation instead of being
`/subscribers/{uid}/entitlements/{eid}/promotional`; after percent-encoding,
the dispatched URL embeds `%0A%20...` around the path. -/
theorem c8_promotional_path_is_malformed :
    (grant_promotional_entitlement_request "u" "e" PromotionDuration.DAILY
        ⟨2023, 1, 1, 0, 0, 0, 0⟩).path =
      "\n        /subscribers/u/entitlements/e/promotional\n        " ∧
    make_request_url (grant_promotional_entitlement_request "u" "e"
        PromotionDuration.DAILY ⟨2023, 1, 1, 0, 0, 0, 0⟩).path =
      "https://api.revenuecat.com/v1%0A%20%20%20%20%20%20%20%20/subscribers/u/entitlements/e/promotional%0A%20%20%20%20%20%20%20%20" ∧
    (grant_promotional_entitlement_request "u" "e" PromotionDuration.DAILY
        ⟨2023, 1, 1, 0, 0, 0, 0⟩).method = "POST" ∧
    (grant_promotional_entitlement_request "u" "e" PromotionDuration.DAILY
        ⟨2023, 1, 1, 0, 0, 0, 0⟩).key = some "secret" ∧
    (grant_promotional_entitlement_request "u" "e" PromotionDuration.DAILY
        ⟨2023, 1, 1, 0, 0, 0, 0⟩).payload =
      some [("duration", PyVal.enumMember "daily"),
            ("start_time_ms", PyVal.rat (to_timestamp ⟨2023, 1, 1, 0, 0, 0, 0⟩))] :=
  ⟨rfl, rfl, rfl, rfl, rfl⟩

/-- C9 (confirmed).  The epoch-millisecond conversion is exactly
`timestamp_seconds * 1000`: for every datetime it equals the datetime's
microsecond count divided by exactly 1000 (sub-millisecond precision is kept,
nothing is rounded), and both the promotional-grant and the deferral payload
carry exactly this value. -/
theorem c9_epoch_millisecond_conversion_exact :
    ∀ d : PyDatetime,
      to_timestamp d = PyDatetime.timestamp d * 1000 ∧
      to_timestamp d = (PyDatetime.epochMicros d : ℚ) / 1000 ∧
      (∀ uid pid : String,
        (defer_google_subscription_request uid pid d).payload =
          some [("expiry_time_ms", PyVal.rat (to_timestamp d))]) ∧
      (∀ uid eid : String, ∀ du : PromotionDuration,
        (grant_promotional_entitlement_request uid eid du d).payload =
          some [("duration", PyVal.enumMember du.value),
                ("start_time_ms", PyVal.rat (to_timestamp d))]) := by
  intro d
  refine ⟨rfl, ?_, fun uid pid => rfl, fun uid eid du => rfl⟩
  unfold to_timestamp PyDatetime.timestamp PyDatetime.epochMicros
  push_cast
  field_simp
  ring

/-- C10 (corrected).  For *every* call of `create_purchase` — all argument
combinations, not only the all-defaults one — the payload dict carries all
ten keys in order, and each optional argument left at its default is bound
to Python `None` (JSON `null` once serialized); the request dispatches
exactly this payload.  The body is actually serialized exactly when
`payment_mode` is left at its default: with `payment_mode` supplied, the
payload holds the plain `PaymentMode` member and `json.dumps` raises
`TypeError` (last conjunct), so no body — null-bearing or otherwise — is
ever sent in that region of the claim. -/
theorem c10_create_purchase_defaults_sent_as_nulls :
    ∀ (uid ft : String) (pf : Platform) (pid : Option String) (pr : Option ℚ)
      (cur : Option String) (pm : Option PaymentMode) (ip : Option ℚ)
      (ir : Bool) (poi : Option String)
      (at_ : Option (List (String × SubscriberAttribute))),
      (create_purchase_request uid pf ft pid pr cur pm ip ir poi at_).payload =
        some (create_purchase_payload uid ft pid pr cur pm ip ir poi at_) ∧
      payloadKeys (create_purchase_payload uid ft pid pr cur pm ip ir poi at_) =
        ["app_user_id", "fetch_token", "product_id", "price", "currency",
         "payment_mode", "introductory_price", "is_restore",
         "presented_offering_identifier", "attributes"] ∧
      (pid = Option.none →
        payloadLookup (create_purchase_payload uid ft pid pr cur pm ip ir poi at_)
          "product_id" = some PyVal.none) ∧
      (pr = Option.none →
        payloadLookup (create_purchase_payload uid ft pid pr cur pm ip ir poi at_)
          "price" = some PyVal.none) ∧
      (cur = Option.none →
        payloadLookup (create_purchase_payload uid ft pid pr cur pm ip ir poi at_)
          "currency" = some PyVal.none) ∧
      (pm = Option.none →
        payloadLookup (create_purchase_payload uid ft pid pr cur pm ip ir poi at_)
          "payment_mode" = some PyVal.none) ∧
      (ip = Option.none →
        payloadLookup (create_purchase_payload uid ft pid pr cur pm ip ir poi at_)
          "introductory_price" = some PyVal.none) ∧
      (poi = Option.none →
        payloadLookup (create_purchase_payload uid ft pid pr cur pm ip ir poi at_)
          "presented_offering_identifier" = some PyVal.none) ∧
      (at_ = Option.none →
        payloadLookup (create_purchase_payload uid ft pid pr cur pm ip ir poi at_)
          "attributes" = some PyVal.none) ∧
      (pm = Option.none →
        payloadSerializable
          (some (create_purchase_payload uid ft pid pr cur pm ip ir poi at_)) =
            true) ∧
      (∀ pm0 : PaymentMode,
        payloadSerializable
          (some (create_purchase_payload uid ft pid pr cur (some pm0) ip ir poi at_)) =
            false) := by
  intro uid ft pf pid pr cur pm ip ir poi at_
  refine ⟨rfl, rfl, ?_, ?_, ?_, ?_, ?_, ?_, ?_, ?_, ?_⟩
  · rintro rfl; rfl
  · rintro rfl; rfl
  · rintro rfl; rfl
  · rintro rfl; rfl
  · rintro rfl; rfl
  · rintro rfl; rfl
  · rintro rfl; rfl
  · rintro rfl
    cases pid <;> cases pr <;> cases cur <;> cases ip <;> cases poi <;>
      cases at_ <;> rfl
  · intro pm0
    cases pid <;> cases pr <;> cases cur <;> cases ip <;> cases poi <;>
      cases at_ <;> rfl

/-- C10, the claim as stated is false: in a call with `payment_mode`
supplied and `product_id` (among others) left at its default, `json.dumps`
raises `TypeError` on the `PaymentMode` member, no body is serialized, the
transport is never invoked — so no request body carrying
`"product_id": null` exists for that call. -/
theorem c10_payment_mode_blocks_serialization :
    (Client.call clientBoth
        (create_purchase_request "u" Platform.IOS "ft" Option.none Option.none
          Option.none (some PaymentMode.PAY_AS_YOU_GO) Option.none false
          Option.none Option.none)
        (.response 200 (some JValue.null))).result = .error dumpsTypeError ∧
    (Client.call clientBoth
        (create_purchase_request "u" Platform.IOS "ft" Option.none Option.none
          Option.none (some PaymentMode.PAY_AS_YOU_GO) Option.none false
          Option.none Option.none)
        (.response 200 (some JValue.null))).transportInvoked = false ∧
    payloadSerializable
      (create_purchase_request "u" Platform.IOS "ft" Option.none Option.none
        Option.none (some PaymentMode.PAY_AS_YOU_GO) Option.none false
        Option.none Option.none).payload = false :=
  ⟨rfl, rfl, rfl⟩

end RC
